import Mathlib

/-!
Shallow embedding of the `grind` command-line client (src/grind/main.go):
the generic request dispatcher `doRequest`, the config lifecycle
(`mustLoadConfig` / `mustWriteConfig`), the version gate `checkVersion`,
and the bootstrap flow `CommandInit`.

Effectful Go code is modelled by explicit outcome values (`Res`) paired
with a trace of observable events (`Event`): log output, network
requests, and file writes.  The environment a run depends on (home
directory, config file contents, standard-input token, server responses)
is passed in explicitly via `CommandEnv`.
-/

namespace Codegrinder

/-- Semantic version with major.minor.patch components, as produced by
`semver.MustParse` on the release-style version strings this tool
compares (pre-release tags are not used by those strings and are
abstracted away). -/
structure Semver where
  major : Nat
  minor : Nat
  patch : Nat
deriving DecidableEq, Repr

/-- Strict greater-than on semantic versions (`semver.Version.GT`):
lexicographic comparison of major, then minor, then patch. -/
def Semver.GT (a b : Semver) : Bool :=
  Nat.blt b.major a.major ||
    (a.major == b.major &&
      (Nat.blt b.minor a.minor ||
        (a.minor == b.minor && Nat.blt b.patch a.patch)))

/-- The process-wide `Config` variable: exported (JSON-persisted) fields
`host` and `cookie`, plus the unexported diagnostic flags `apiReport`
and `apiDump`, which Go's `encoding/json` never serializes. -/
structure Config where
  host : String
  cookie : String
  apiReport : Bool
  apiDump : Bool
deriving DecidableEq, Repr

/-- The zero value of `Config`, its state at process start. -/
def zeroConfig : Config :=
  { host := "", cookie := "", apiReport := false, apiDump := false }

/-- The data that `json.MarshalIndent(&Config,...)` actually writes: only
the exported `host` and `cookie` fields; the lowercase diagnostic flags
are invisible to `encoding/json`. -/
structure PersistedConfig where
  host : String
  cookie : String
deriving DecidableEq, Repr

/-- Observable events of a run: a log line (`log.Printf`), a line printed
to standard output (`fmt.Println`), an outgoing network request
(`http.DefaultClient.Do`), or a write of the config file
(`ioutil.WriteFile`). -/
inductive Event where
  | logLine (msg : String)
  | stdout (msg : String)
  | netRequest (method url : String)
  | fileWrite (path : String) (data : PersistedConfig)
deriving DecidableEq, Repr

/-- Outcome of a (possibly aborting) computation: a normal return,
a `log.Panicf` abort, or a `log.Fatalf` abort. -/
inductive Res (α : Type) where
  | ok (a : α)
  | panicked (msg : String)
  | fatal (msg : String)
deriving DecidableEq, Repr

/-- Sequencing of traced, aborting computations: on a normal return the
continuation runs and traces concatenate; an abort stops the run. -/
def rbind {α β : Type} (x : Res α × List Event)
    (f : α → Res β × List Event) : Res β × List Event :=
  match x with
  | (Res.ok a, t) => ((f a).1, t ++ (f a).2)
  | (Res.panicked m, t) => (Res.panicked m, t)
  | (Res.fatal m, t) => (Res.fatal m, t)

/-- Whether an outcome is a normal return. -/
def Res.isOk {α : Type} : Res α → Bool
  | Res.ok _ => true
  | _ => false

/-- Whether an outcome aborts the process (`log.Panicf` or `log.Fatalf`). -/
def Res.isAbort {α : Type} : Res α → Bool
  | Res.ok _ => false
  | _ => true

/-- The observed behaviour of one HTTP exchange, from the client's side:
whether the transport connected, the response status code, and whether
the response body decodes into the download target. -/
structure HttpResponse where
  connected : Bool
  status : Nat
  decodeOk : Bool
deriving DecidableEq, Repr

/-- Embedding of `strings.HasPrefix s pre`: whether `pre` is an initial
segment of `s`, computed on character lists (equivalent to Go's
byte-level comparison on valid UTF-8). -/
def strHasPre (s pre : String) : Bool :=
  pre.data.isPrefixOf s.data

/-- The four methods `doRequest` accepts. -/
def validMethod (method : String) : Bool :=
  method == "GET" || method == "POST" || method == "PUT" || method == "DELETE"

/-- Query-string rendering of the params map (`values.Encode()`); key
order and URL escaping are abstracted, as no caller-visible behaviour in
scope depends on them. -/
def encodeParams (params : List (String × String)) : String :=
  String.intercalate "&" (params.map fun p => p.1 ++ "=" ++ p.2)

/-- The default host used when the loaded config has an empty host. -/
def defaultHost : String := "dorking.cs.dixie.edu"

/-- Per-user config dot file name. -/
def perUserDotFile : String := ".codegrinderrc"

/-- The request URL `doRequest` builds: scheme, configured host, fixed
API version, path, and the encoded params when any were given. -/
def requestUrl (cfg : Config) (path : String) (params : List (String × String)) : String :=
  let baseUrl := "https://" ++ cfg.host ++ "/v2" ++ path
  if params.isEmpty then baseUrl else baseUrl ++ "?" ++ encodeParams params

/-- The events emitted by `doRequest` up to and including the network
request itself: the report log line when `apiReport` is set, the
request-data dump when a body is attached (POST/PUT with a payload) and
`apiDump` is set, then the request. -/
def requestSendTrace (cfg : Config) (path : String) (params : List (String × String))
    (method : String) (upload : Option String) : List Event :=
  (if cfg.apiReport then [Event.logLine (method ++ " " ++ requestUrl cfg path params)]
   else [])
  ++ (match upload with
      | some payload =>
        if method == "POST" || method == "PUT" then
          if cfg.apiDump then [Event.logLine ("Request data: " ++ payload)] else []
        else []
      | none => [])
  ++ [Event.netRequest method (requestUrl cfg path params)]

/-- Embedding of `doRequest`.  `upload` is the serialized JSON payload if
one was supplied (Go: the `upload` argument non-nil; `MarshalIndent`
cannot fail on the struct types the callers pass).  `download` records
whether a download target was supplied.  `resp` is the server's observed
response.  Returns the Go function's boolean result (or the abort) and
the trace of the run. -/
def doRequest (cfg : Config) (path : String) (params : List (String × String))
    (method : String) (upload : Option String) (download : Bool)
    (notfoundokay : Bool) (resp : HttpResponse) : Res Bool × List Event :=
  if !(strHasPre path "/") then
    (Res.panicked "doRequest path must start with /", [])
  else if !(validMethod method) then
    (Res.panicked "doRequest only recognizes GET, POST, PUT, and DELETE methods", [])
  else
    let sendTrace := requestSendTrace cfg path params method upload
    if !resp.connected then
      (Res.fatal ("error connecting to " ++ cfg.host), sendTrace)
    else if notfoundokay && resp.status == 404 then
      (Res.ok false, sendTrace)
    else if resp.status != 200 then
      (Res.fatal "giving up",
        sendTrace ++ [Event.logLine ("unexpected status from " ++ requestUrl cfg path params)])
    else if download then
      if !resp.decodeOk then
        (Res.fatal "failed to parse result object from server", sendTrace)
      else
        (Res.ok true,
          sendTrace ++ if cfg.apiDump then [Event.logLine "Response data"] else [])
    else
      (Res.ok false, sendTrace)

/-- Embedding of `mustGetObject`: a GET with no tolerance for 404. -/
def mustGetObject (cfg : Config) (path : String) (params : List (String × String))
    (download : Bool) (resp : HttpResponse) : Res Bool × List Event :=
  doRequest cfg path params "GET" none download false resp

/-- Embedding of `getObject`: a GET that tolerates 404. -/
def getObject (cfg : Config) (path : String) (params : List (String × String))
    (download : Bool) (resp : HttpResponse) : Res Bool × List Event :=
  doRequest cfg path params "GET" none download true resp

/-- Embedding of `mustPostObject`. -/
def mustPostObject (cfg : Config) (path : String) (params : List (String × String))
    (upload : Option String) (download : Bool) (resp : HttpResponse) :
    Res Bool × List Event :=
  doRequest cfg path params "POST" upload download false resp

/-- Embedding of `mustPutObject`. -/
def mustPutObject (cfg : Config) (path : String) (params : List (String × String))
    (upload : Option String) (download : Bool) (resp : HttpResponse) :
    Res Bool × List Event :=
  doRequest cfg path params "PUT" upload download false resp

/-- Modelled from the spec: the Version Descriptor of the shared types
package (not under src/), holding the server's required and recommended
grind versions, already parsed as semantic versions (`semver.MustParse`
aborts on malformed strings; the claims in scope quantify over parsed
versions). -/
structure Version where
  grindVersionRequired : Semver
  grindVersionRecommended : Semver
deriving DecidableEq, Repr

/-- Embedding of `checkVersion`: fetch `/version`, abort if the required
version is strictly above the client version, warn if the recommended
version is strictly above it.  `current` is `CurrentVersion.Version`
parsed; `resp` and `server` describe the server's response to the
version fetch. -/
def checkVersion (cfg : Config) (current : Semver) (resp : HttpResponse)
    (server : Version) : Res Unit × List Event :=
  rbind (mustGetObject cfg "/version" [] true resp) (fun _ =>
    if Semver.GT server.grindVersionRequired current then
      (Res.fatal "you must upgrade to continue",
        [Event.logLine "this grind version is older than the server requires"])
    else if Semver.GT server.grindVersionRecommended current then
      (Res.ok (),
        [Event.logLine "this grind version is older than the server recommends",
         Event.logLine "please upgrade as soon as possible"])
    else
      (Res.ok (), []))

/-- State of the per-user config file as `ioutil.ReadFile` +
`json.Unmarshal` see it: unreadable, readable but not valid JSON for the
Config shape, or valid with the given persisted fields. -/
inductive FileState where
  | missing
  | invalid
  | valid (data : PersistedConfig)
deriving DecidableEq, Repr

/-- Everything outside the process that a `grind init` run depends on:
home directory (HOME, falling back to USERPROFILE), config file state,
the two persistent command-line flags, the client's own version, the
cookie name constant, the token read from standard input (`none` when
`fmt.Scanln` errors or reads no token), and the server's responses to
the three requests the flow can issue, in order. -/
structure CommandEnv where
  home : Option String
  configFile : FileState
  flagApi : Bool
  flagApiDump : Bool
  currentVersion : Semver
  cookieName : String
  scan : Option String
  versionResp1 : HttpResponse
  serverVersion1 : Version
  versionResp2 : HttpResponse
  serverVersion2 : Version
  userResp : HttpResponse
  userName : String
deriving Repr

/-- The flag-merge step of `mustLoadConfig`: the `api` flag switches on
request reporting; the `api-dump` flag switches on both reporting and
dumping.  The flags only ever set the fields, never clear them. -/
def mergeFlags (env : CommandEnv) (cfg : Config) : Config :=
  let cfg2 : Config := if env.flagApi then { cfg with apiReport := true } else cfg
  if env.flagApiDump then { cfg2 with apiReport := true, apiDump := true } else cfg2

/-- The part of `mustLoadConfig` before the version gate: resolve the
home directory, read and parse the config file into the process config
(`json.Unmarshal` overwrites the exported `host` and `cookie` fields and
cannot touch the unexported flags), then merge the diagnostic
command-line flags. -/
def loadConfigFile (env : CommandEnv) (cfg : Config) : Res Config × List Event :=
  match env.home with
  | none => (Res.fatal "Unable to locate home directory, giving up", [])
  | some _ =>
    match env.configFile with
    | FileState.missing =>
      (Res.fatal "Unable to load config file; try running grind init", [])
    | FileState.invalid =>
      (Res.fatal "you may wish to try deleting the file and running grind init again",
        [Event.logLine "failed to parse the config file"])
    | FileState.valid data =>
      (Res.ok (mergeFlags env { cfg with host := data.host, cookie := data.cookie }), [])

/-- Embedding of `mustLoadConfig`: load and parse the config file, merge
the diagnostic flags, then run the version gate before returning. -/
def mustLoadConfig (env : CommandEnv) (cfg : Config) : Res Config × List Event :=
  rbind (loadConfigFile env cfg) (fun cfg2 =>
    rbind (checkVersion cfg2 env.currentVersion env.versionResp1 env.serverVersion1)
      (fun _ => (Res.ok cfg2, [])))

/-- The data `json.MarshalIndent(&Config, ...)` serializes: the exported
`host` and `cookie` fields only; the lowercase diagnostic flags are
skipped by Go's `encoding/json`. -/
def marshalConfig (cfg : Config) : PersistedConfig :=
  ⟨cfg.host, cfg.cookie⟩

/-- Embedding of `mustWriteConfig`: resolve the home directory and write
the config file; the written data is the JSON marshalling of the config.
(An OS-level write failure is outside the embedding; the marshalling
itself cannot fail on this struct.) -/
def mustWriteConfig (env : CommandEnv) (cfg : Config) : Res Unit × List Event :=
  match env.home with
  | none => (Res.fatal "Unable to locate home directory, giving up", [])
  | some home =>
    (Res.ok (),
      [Event.fileWrite (home ++ "/" ++ perUserDotFile) (marshalConfig cfg)])

/-- Embedding of `CommandInit` (the `grind init` flow): load the config,
print the instructions, read the pasted cookie token, check its shape,
install cookie and host into the config, re-run the version gate, verify
the cookie by fetching `/users/me`, then persist the config.  Returns
the verified user name on success. -/
def CommandInit (env : CommandEnv) (cfg : Config) : Res String × List Event :=
  rbind (mustLoadConfig env cfg) (fun cfg1 =>
    let loadedHost := if cfg1.host != "" then cfg1.host else defaultHost
    rbind ((Res.ok (), [Event.stdout "Please follow these steps"]) :
        Res Unit × List Event) (fun _ =>
      match env.scan with
      | none => (Res.fatal "error encountered while reading the cookie you pasted", [])
      | some cookie =>
        if !(strHasPre cookie (env.cookieName ++ "=")) then
          (Res.fatal "the cookie must start with the cookie name and =", [])
        else
          let cfg2 : Config := { cfg1 with cookie := cookie, host := loadedHost }
          rbind (checkVersion cfg2 env.currentVersion env.versionResp2 env.serverVersion2)
            (fun _ =>
              rbind (mustGetObject cfg2 "/users/me" [] true env.userResp) (fun _ =>
                rbind (mustWriteConfig env cfg2) (fun _ =>
                  (Res.ok env.userName,
                    [Event.logLine ("cookie verified and saved: welcome " ++ env.userName)]))))))

/-- Whether an outcome is a `log.Panicf` abort. -/
def Res.isPanic {α : Type} : Res α → Bool
  | Res.panicked _ => true
  | _ => false

/-- Run a Boolean observation on the value of a normal return; aborts
observe as `false`. -/
def Res.onOk {α : Type} : Res α → (α → Bool) → Bool
  | Res.ok a, g => g a
  | _, _ => false

/-- Whether a trace contains a write of the config file. -/
def hasFileWrite (t : List Event) : Bool :=
  t.any fun e =>
    match e with
    | Event.fileWrite _ _ => true
    | _ => false

/-- Whether a trace contains an outgoing network request. -/
def hasNetRequest (t : List Event) : Bool :=
  t.any fun e =>
    match e with
    | Event.netRequest _ _ => true
    | _ => false

/-- A fully successful HTTP exchange as the non-tolerant GET helpers see
it: connected, status 200, body decodes. -/
def respOK (r : HttpResponse) : Bool :=
  r.connected && (r.status == 200) && r.decodeOk

/-- The version gate lets execution continue: the version fetch succeeds
and the server's required version is not strictly above the client's. -/
def versionGatePasses (current : Semver) (resp : HttpResponse) (server : Version) : Bool :=
  respOK resp && !(Semver.GT server.grindVersionRequired current)

/-- The standard-input step of the bootstrap succeeds: exactly one token
was read and it starts with the cookie name followed by `=`. -/
def scanOK (env : CommandEnv) : Bool :=
  match env.scan with
  | some cookie => strHasPre cookie (env.cookieName ++ "=")
  | none => false

/-- Whether the config file was read and parsed. -/
def configFileOK (env : CommandEnv) : Bool :=
  match env.configFile with
  | FileState.valid _ => true
  | _ => false

/-- All steps of the `grind init` flow succeed: home directory found,
config file loaded, first version gate passed, cookie token well formed,
second version gate passed, and the identity-verification GET succeeded. -/
def initSucceeds (env : CommandEnv) : Bool :=
  env.home.isSome && configFileOK env &&
    versionGatePasses env.currentVersion env.versionResp1 env.serverVersion1 &&
    scanOK env &&
    versionGatePasses env.currentVersion env.versionResp2 env.serverVersion2 &&
    respOK env.userResp

/-- Claim under test (C1), stated as given: under valid arguments and a
connected, decodable exchange, `doRequest` returns `false` without
aborting exactly when the status is 404 with `tolerateNotFound` set, any
status outside the 2xx range (other than that case) aborts fatally, and
every 2xx status is treated as success (a normal return). -/
def requestStatusClaim : Prop :=
  ∀ (cfg : Config) (path : String) (params : List (String × String))
    (method : String) (upload : Option String) (download : Bool)
    (notfoundokay : Bool) (resp : HttpResponse),
    strHasPre path "/" = true → validMethod method = true →
    resp.connected = true → resp.decodeOk = true →
    (((doRequest cfg path params method upload download notfoundokay resp).1
        = Res.ok false) ↔ (resp.status = 404 ∧ notfoundokay = true))
    ∧ ((200 ≤ resp.status ∧ resp.status ≤ 299) →
        ∃ b, (doRequest cfg path params method upload download notfoundokay resp).1
          = Res.ok b)
    ∧ (¬(200 ≤ resp.status ∧ resp.status ≤ 299) →
        ¬(resp.status = 404 ∧ notfoundokay = true) →
        ∃ m, (doRequest cfg path params method upload download notfoundokay resp).1
          = Res.fatal m)

/-- Claim under test (C8), stated as given: supplying an upload body to
`doRequest` with method GET or DELETE aborts the process. -/
def uploadOnGetDeleteClaim : Prop :=
  ∀ (cfg : Config) (path : String) (params : List (String × String))
    (method : String) (payload : String) (download : Bool)
    (notfoundokay : Bool) (resp : HttpResponse),
    (method = "GET" ∨ method = "DELETE") →
    Res.isAbort
      (doRequest cfg path params method (some payload) download notfoundokay resp).1
      = true

/-- An environment for a `grind init` run on a machine with a home
directory but no config file, where everything else (server, input)
would succeed. -/
def envNoConfigFile : CommandEnv :=
  { home := some "/home/user"
    configFile := FileState.missing
    flagApi := false
    flagApiDump := false
    currentVersion := ⟨2, 1, 0⟩
    cookieName := "codegrinder"
    scan := some "codegrinder=token"
    versionResp1 := ⟨true, 200, true⟩
    serverVersion1 := ⟨⟨2, 0, 0⟩, ⟨2, 0, 0⟩⟩
    versionResp2 := ⟨true, 200, true⟩
    serverVersion2 := ⟨⟨2, 0, 0⟩, ⟨2, 0, 0⟩⟩
    userResp := ⟨true, 200, true⟩
    userName := "Alice" }

/-- An environment for a `grind init` run with a valid config file and a
healthy server, where the user pastes a token without the cookie-name
shape. -/
def envBadCookiePaste : CommandEnv :=
  { home := some "/home/user"
    configFile := FileState.valid ⟨"srv.example.edu", "codegrinder=old"⟩
    flagApi := false
    flagApiDump := false
    currentVersion := ⟨2, 1, 0⟩
    cookieName := "codegrinder"
    scan := some "garbage"
    versionResp1 := ⟨true, 200, true⟩
    serverVersion1 := ⟨⟨2, 0, 0⟩, ⟨2, 0, 0⟩⟩
    versionResp2 := ⟨true, 200, true⟩
    serverVersion2 := ⟨⟨2, 0, 0⟩, ⟨2, 0, 0⟩⟩
    userResp := ⟨true, 200, true⟩
    userName := "Alice" }

/-- A sample well-formed config, used to exercise the save/load round
trip at a concrete input. -/
def cSample : Config :=
  { host := "srv.example.edu", cookie := "codegrinder=old"
    apiReport := false, apiDump := false }

/-- An environment whose config file holds the saved form of `cSample`,
run with the `api-dump` command-line flag set and a healthy server. -/
def envDumpFlag : CommandEnv :=
  { home := some "/home/user"
    configFile := FileState.valid (marshalConfig cSample)
    flagApi := false
    flagApiDump := true
    currentVersion := ⟨2, 1, 0⟩
    cookieName := "codegrinder"
    scan := some "codegrinder=new"
    versionResp1 := ⟨true, 200, true⟩
    serverVersion1 := ⟨⟨2, 0, 0⟩, ⟨2, 0, 0⟩⟩
    versionResp2 := ⟨true, 200, true⟩
    serverVersion2 := ⟨⟨2, 0, 0⟩, ⟨2, 0, 0⟩⟩
    userResp := ⟨true, 200, true⟩
    userName := "Alice" }

/-- The outcome component of `doRequest` as a standalone function of the
inputs that determine it; the diagnostic flags, the params, and the
upload payload play no part in it (used to state and prove the
characterization lemma `doRequest_fst`). -/
def requestOutcome (cfg : Config) (path : String) (method : String)
    (download notfoundokay : Bool) (resp : HttpResponse) : Res Bool :=
  if !(strHasPre path "/") then
    Res.panicked "doRequest path must start with /"
  else if !(validMethod method) then
    Res.panicked "doRequest only recognizes GET, POST, PUT, and DELETE methods"
  else if !resp.connected then
    Res.fatal ("error connecting to " ++ cfg.host)
  else if notfoundokay && resp.status == 404 then
    Res.ok false
  else if resp.status != 200 then
    Res.fatal "giving up"
  else if download then
    if !resp.decodeOk then Res.fatal "failed to parse result object from server"
    else Res.ok true
  else
    Res.ok false

theorem rbind_fst {α β : Type} (x : Res α × List Event) (f : α → Res β × List Event) :
    (rbind x f).1 =
      match x.1 with
      | Res.ok a => (f a).1
      | Res.panicked m => Res.panicked m
      | Res.fatal m => Res.fatal m := by
  rcases x with ⟨r, t⟩
  cases r <;> rfl

theorem rbind_snd {α β : Type} (x : Res α × List Event) (f : α → Res β × List Event) :
    (rbind x f).2 =
      x.2 ++
        match x.1 with
        | Res.ok a => (f a).2
        | _ => [] := by
  rcases x with ⟨r, t⟩
  cases r <;> simp [rbind]

theorem onOk_const {α : Type} (r : Res α) (k : Bool) :
    Res.onOk r (fun _ => k) = (Res.isOk r && k) := by
  cases r <;> simp [Res.onOk, Res.isOk]

theorem onOk_congr {α : Type} (r : Res α) (g g' : α → Bool)
    (h : ∀ a, g a = g' a) : Res.onOk r g = Res.onOk r g' := by
  cases r <;> simp [Res.onOk, h]

theorem isOk_rbind {α β : Type} (x : Res α × List Event)
    (f : α → Res β × List Event) :
    Res.isOk (rbind x f).1 = Res.onOk x.1 (fun a => Res.isOk (f a).1) := by
  rcases x with ⟨r, t⟩
  cases r <;> simp [rbind, Res.onOk, Res.isOk]

theorem resUnit_ok (r : Res Unit) (h : Res.isOk r = true) : r = Res.ok () := by
  cases r with
  | ok a => cases a; rfl
  | panicked m => simp [Res.isOk] at h
  | fatal m => simp [Res.isOk] at h

theorem hasFileWrite_append (a b : List Event) :
    hasFileWrite (a ++ b) = (hasFileWrite a || hasFileWrite b) := by
  simp [hasFileWrite, List.any_append]

theorem hasFileWrite_rbind {α β : Type} (x : Res α × List Event)
    (f : α → Res β × List Event) :
    hasFileWrite (rbind x f).2 =
      (hasFileWrite x.2 || Res.onOk x.1 (fun a => hasFileWrite (f a).2)) := by
  rcases x with ⟨r, t⟩
  cases r <;> simp [rbind, hasFileWrite_append, Res.onOk]

theorem hasFileWrite_nil : hasFileWrite ([] : List Event) = false := rfl

theorem hasFileWrite_log (m : String) : hasFileWrite [Event.logLine m] = false := rfl

theorem hasFileWrite_out (m : String) : hasFileWrite [Event.stdout m] = false := rfl

theorem hasFileWrite_ite (c : Prop) [Decidable c] (a b : List Event) :
    hasFileWrite (if c then a else b) = if c then hasFileWrite a else hasFileWrite b :=
  apply_ite hasFileWrite c a b

theorem sendTrace_no_write (cfg : Config) (path : String)
    (params : List (String × String)) (method : String) (upload : Option String) :
    hasFileWrite (requestSendTrace cfg path params method upload) = false := by
  unfold requestSendTrace
  cases upload <;> cases hr : cfg.apiReport <;> cases hd : cfg.apiDump <;>
    simp [hasFileWrite]

theorem doRequest_fst (cfg : Config) (path : String)
    (params : List (String × String)) (method : String) (upload : Option String)
    (download : Bool) (notfoundokay : Bool) (resp : HttpResponse) :
    (doRequest cfg path params method upload download notfoundokay resp).1
        = requestOutcome cfg path method download notfoundokay resp := by
  unfold doRequest requestOutcome
  (repeat' split) <;> rfl

theorem doRequest_no_write (cfg : Config) (path : String)
    (params : List (String × String)) (method : String) (upload : Option String)
    (download : Bool) (notfoundokay : Bool) (resp : HttpResponse) :
    hasFileWrite (doRequest cfg path params method upload download notfoundokay resp).2
        = false := by
  unfold doRequest
  (repeat' split) <;>
    simp only [hasFileWrite_append, sendTrace_no_write, hasFileWrite_ite,
      hasFileWrite_log, hasFileWrite_nil, ite_self, Bool.false_or, Bool.or_false,
      Bool.or_self]

theorem mustGetObject_no_write (cfg : Config) (path : String)
    (params : List (String × String)) (download : Bool) (resp : HttpResponse) :
    hasFileWrite (mustGetObject cfg path params download resp).2 = false :=
  doRequest_no_write cfg path params "GET" none download false resp

theorem onOk_mustGetObject (cfg : Config) (path : String)
    (params : List (String × String)) (resp : HttpResponse) (g : Bool → Bool)
    (hp : strHasPre path "/" = true) :
    Res.onOk (mustGetObject cfg path params true resp).1 g
      = (respOK resp && g true) := by
  unfold mustGetObject
  rw [doRequest_fst]
  unfold requestOutcome respOK
  rcases resp with ⟨c, s, d⟩
  simp only [hp]
  cases c <;> cases d <;> cases hs : s == 200 <;>
    simp_all [validMethod, Res.onOk, bne]

theorem checkVersion_no_write (cfg : Config) (current : Semver)
    (resp : HttpResponse) (server : Version) :
    hasFileWrite (checkVersion cfg current resp server).2 = false := by
  unfold checkVersion
  rw [hasFileWrite_rbind, mustGetObject_no_write]
  rcases h : (mustGetObject cfg "/version" [] true resp).1 with a | m | m
  all_goals simp only [Res.onOk, Bool.false_or]
  all_goals (repeat' split) <;> rfl

theorem onOk_checkVersion (cfg : Config) (current : Semver)
    (resp : HttpResponse) (server : Version) (g : Unit → Bool) :
    Res.onOk (checkVersion cfg current resp server).1 g
      = (versionGatePasses current resp server && g ()) := by
  unfold checkVersion versionGatePasses
  rw [rbind_fst]
  have h := onOk_mustGetObject cfg "/version" [] resp (fun _ => true) (by decide)
  rcases hm : (mustGetObject cfg "/version" [] true resp).1 with a | m | m <;>
      rw [hm] at h <;> simp only [Res.onOk, Bool.and_true] at h
  · cases hreq : Semver.GT server.grindVersionRequired current <;>
      cases hrec : Semver.GT server.grindVersionRecommended current <;>
        simp [hreq, hrec, Res.onOk, ← h]
  · simp [Res.onOk, ← h]
  · simp [Res.onOk, ← h]

theorem checkVersion_ok_of_gate (cfg : Config) (current : Semver)
    (resp : HttpResponse) (server : Version)
    (h : versionGatePasses current resp server = true) :
    (checkVersion cfg current resp server).1 = Res.ok () := by
  apply resUnit_ok
  have h2 := onOk_checkVersion cfg current resp server (fun _ => true)
  rw [onOk_const] at h2
  simp only [Bool.and_true] at h2
  rw [h2, h]

theorem mustWriteConfig_write (env : CommandEnv) (cfg : Config) :
    hasFileWrite (mustWriteConfig env cfg).2 = env.home.isSome := by
  rcases h : env.home with _ | home
  all_goals simp [mustWriteConfig, h, hasFileWrite]

theorem loadConfigFile_no_write (env : CommandEnv) (cfg : Config) :
    hasFileWrite (loadConfigFile env cfg).2 = false := by
  unfold loadConfigFile
  rcases env.home with _ | home
  · rfl
  · rcases env.configFile with _ | _ | data <;> rfl

theorem mustLoadConfig_no_write (env : CommandEnv) (cfg : Config) :
    hasFileWrite (mustLoadConfig env cfg).2 = false := by
  unfold mustLoadConfig
  rw [hasFileWrite_rbind, loadConfigFile_no_write]
  rw [onOk_congr _ _ (fun _ => false), onOk_const]
  · simp
  · intro cfg2
    rw [hasFileWrite_rbind, checkVersion_no_write]
    rw [onOk_congr _ _ (fun _ => false), onOk_const]
    · simp
    · intro u
      rfl

theorem isOk_mustLoadConfig (env : CommandEnv) (cfg : Config) :
    Res.isOk (mustLoadConfig env cfg).1
      = (env.home.isSome && configFileOK env &&
          versionGatePasses env.currentVersion env.versionResp1 env.serverVersion1) := by
  unfold mustLoadConfig
  rw [isOk_rbind]
  rw [onOk_congr _ _ (fun _ =>
    versionGatePasses env.currentVersion env.versionResp1 env.serverVersion1)]
  · rw [onOk_const]
    unfold loadConfigFile configFileOK
    rcases env.home with _ | home <;>
      [skip; rcases env.configFile with _ | _ | data] <;>
        simp [Res.isOk, Option.isSome]
  · intro cfg2
    rw [isOk_rbind, onOk_checkVersion]
    simp [Res.isOk]


/-- C4: the `grind init` flow writes the config file exactly when every
step before the write succeeded — home directory found, config file
loaded, both version gates passed, cookie token well formed, and the
identity-verification GET of `/users/me` succeeded.  In particular, a
failure at any earlier step leaves the config file untouched. -/
theorem init_writes_config_iff_all_steps_succeed (env : CommandEnv) (cfg : Config) :
    hasFileWrite (CommandInit env cfg).2 = initSucceeds env := by
  unfold CommandInit
  rw [hasFileWrite_rbind, mustLoadConfig_no_write]
  rw [onOk_congr _ _ (fun _ =>
      scanOK env &&
        (versionGatePasses env.currentVersion env.versionResp2 env.serverVersion2 &&
          (respOK env.userResp && env.home.isSome)))]
  · rw [onOk_const, isOk_mustLoadConfig]
    unfold initSucceeds
    cases h1 : env.home.isSome <;> cases h2 : configFileOK env <;>
      cases h3 : versionGatePasses env.currentVersion env.versionResp1 env.serverVersion1 <;>
      cases h4 : scanOK env <;>
      cases h5 : versionGatePasses env.currentVersion env.versionResp2 env.serverVersion2 <;>
      cases h6 : respOK env.userResp <;> simp
  · intro cfg1
    rw [hasFileWrite_rbind, hasFileWrite_out]
    simp only [Res.onOk, Bool.false_or]
    rcases hscan : env.scan with _ | cookie
    · simp [scanOK, hscan, hasFileWrite_nil]
    · cases hpre : strHasPre cookie (env.cookieName ++ "=")
      · simp [scanOK, hscan, hpre, hasFileWrite_nil]
      · simp only [hpre, Bool.not_true, Bool.false_eq_true, if_false]
        rw [hasFileWrite_rbind, checkVersion_no_write]
        rw [onOk_checkVersion]
        rw [hasFileWrite_rbind, mustGetObject_no_write]
        rw [onOk_mustGetObject _ _ _ _ _ (by decide)]
        rw [hasFileWrite_rbind, mustWriteConfig_write]
        rw [onOk_congr _ _ (fun _ => false), onOk_const]
        · simp [scanOK, hscan, hpre]
        · intro u
          exact hasFileWrite_log _

/-- C6: `doRequest` aborts with a programmer-error panic exactly when the
path does not start with `/` or the method is not one of GET, POST, PUT,
DELETE; in that case it aborts with an empty trace, before any request
is built. -/
theorem doRequest_contract_gate (cfg : Config) (path : String)
    (params : List (String × String)) (method : String) (upload : Option String)
    (download : Bool) (notfoundokay : Bool) (resp : HttpResponse) :
    (Res.isPanic (doRequest cfg path params method upload download notfoundokay resp).1
        = (!(strHasPre path "/") || !(validMethod method)))
    ∧ ((strHasPre path "/" && validMethod method) = false →
        (doRequest cfg path params method upload download notfoundokay resp).2 = []) := by
  constructor
  · rw [doRequest_fst]
    unfold requestOutcome
    cases hp : strHasPre path "/" <;> cases hm : validMethod method <;>
      simp [hp, hm] <;> (repeat' split) <;> rfl
  · intro h
    unfold doRequest
    cases hp : strHasPre path "/" <;> cases hm : validMethod method <;>
      simp_all

/-- C6 witness: a request with a path missing the leading separator
panics before any request is built. -/
theorem doRequest_contract_gate_witness :
    (strHasPre "users/me" "/" && validMethod "GET") = false ∧
      (doRequest zeroConfig "users/me" [] "GET" none true false ⟨true, 200, true⟩).2 = [] :=
  ⟨by decide,
    (doRequest_contract_gate zeroConfig "users/me" [] "GET" none true false
      ⟨true, 200, true⟩).2 (by decide)⟩

/-- C1 counterexample: the claim as stated is false on the code.  At
status 204 — inside the 2xx range — with valid arguments, `doRequest`
aborts fatally instead of treating the response as success. -/
theorem requestStatusClaim_false : ¬ requestStatusClaim := by
  intro h
  have h2 := (h zeroConfig "/x" [] "GET" none true false ⟨true, 204, true⟩
      (by decide) (by decide) rfl rfl).2.1 (by decide)
  rcases h2 with ⟨b, hb⟩
  rw [show (doRequest zeroConfig "/x" [] "GET" none true false ⟨true, 204, true⟩).1
      = Res.fatal "giving up" from rfl] at hb
  exact Res.noConfusion hb

/-- C1 (amended): with valid arguments and a connected, decodable
exchange, `doRequest` returns `false` without aborting exactly when the
status is 404 with `tolerateNotFound` set or the status is 200 with no
download target; any status other than 200 (outside the tolerated-404
case) aborts fatally regardless of the flag; and exactly status 200 is
success, returning `true` precisely when a download target was given. -/
theorem doRequest_status_handling (cfg : Config) (path : String)
    (params : List (String × String)) (method : String) (upload : Option String)
    (download : Bool) (notfoundokay : Bool) (resp : HttpResponse)
    (hp : strHasPre path "/" = true) (hm : validMethod method = true)
    (hc : resp.connected = true) (hd : resp.decodeOk = true) :
    (((doRequest cfg path params method upload download notfoundokay resp).1
        = Res.ok false)
      ↔ ((resp.status = 404 ∧ notfoundokay = true)
          ∨ (resp.status = 200 ∧ download = false)))
    ∧ (resp.status ≠ 200 → ¬(resp.status = 404 ∧ notfoundokay = true) →
        (doRequest cfg path params method upload download notfoundokay resp).1
          = Res.fatal "giving up")
    ∧ (resp.status = 200 →
        (doRequest cfg path params method upload download notfoundokay resp).1
          = Res.ok download) := by
  rw [doRequest_fst]
  unfold requestOutcome
  rcases resp with ⟨c, s, d⟩
  simp only at hc hd
  subst hc; subst hd
  cases notfoundokay <;> cases download <;>
    by_cases h4 : s = 404 <;> by_cases h2 : s = 200 <;>
      simp_all [hp, hm, bne]

/-- C1 witness: a tolerated 404 comes back as a plain `false`. -/
theorem doRequest_status_handling_witness :
    strHasPre "/problems/42" "/" = true ∧ validMethod "GET" = true ∧
      (((doRequest zeroConfig "/problems/42" [] "GET" none true true
          ⟨true, 404, true⟩).1 = Res.ok false)
        ↔ (((404 : Nat) = 404 ∧ true = true) ∨ ((404 : Nat) = 200 ∧ true = false))) :=
  ⟨by decide, by decide,
    (doRequest_status_handling zeroConfig "/problems/42" [] "GET" none true true
      ⟨true, 404, true⟩ (by decide) (by decide) rfl rfl).1⟩

/-- C7: the diagnostic flags `apiReport` and `apiDump` never change the
outcome of `doRequest` — two runs of the same request against the same
response, differing only in those flags, return the same value and abort
or continue identically. -/
theorem doRequest_diag_flags_independent (host cookie : String) (r1 d1 r2 d2 : Bool)
    (path : String) (params : List (String × String)) (method : String)
    (upload : Option String) (download : Bool) (notfoundokay : Bool)
    (resp : HttpResponse) :
    (doRequest ⟨host, cookie, r1, d1⟩ path params method upload download
        notfoundokay resp).1
      = (doRequest ⟨host, cookie, r2, d2⟩ path params method upload download
          notfoundokay resp).1 := by
  rw [doRequest_fst, doRequest_fst]
  rfl

/-- C8 counterexample: the claim as stated is false on the code.  A GET
carrying an upload payload does not abort: it completes normally. -/
theorem uploadOnGetDeleteClaim_false : ¬ uploadOnGetDeleteClaim := by
  intro h
  have h2 := h zeroConfig "/x" [] "GET" "payload" true false ⟨true, 200, true⟩
    (Or.inl rfl)
  rw [show (doRequest zeroConfig "/x" [] "GET" (some "payload") true false
      ⟨true, 200, true⟩).1 = Res.ok true from rfl] at h2
  exact absurd h2 (by decide)

/-- C8 (amended): an upload body supplied with GET or DELETE is silently
ignored rather than an abort: the run — outcome and trace, including the
absence of any request-data dump — is identical to the same call with no
upload body. -/
theorem doRequest_ignores_upload_on_get_delete (cfg : Config) (path : String)
    (params : List (String × String)) (method : String) (payload : String)
    (download : Bool) (notfoundokay : Bool) (resp : HttpResponse)
    (h : method = "GET" ∨ method = "DELETE") :
    doRequest cfg path params method (some payload) download notfoundokay resp
      = doRequest cfg path params method none download notfoundokay resp := by
  rcases h with h | h <;> subst h <;> rfl

/-- C8 witness: a GET with an upload payload runs exactly as without it. -/
theorem doRequest_ignores_upload_witness :
    ("GET" = "GET" ∨ "GET" = "DELETE") ∧
      doRequest zeroConfig "/x" [] "GET" (some "payload") true false ⟨true, 200, true⟩
        = doRequest zeroConfig "/x" [] "GET" none true false ⟨true, 200, true⟩ :=
  ⟨Or.inl rfl,
    doRequest_ignores_upload_on_get_delete zeroConfig "/x" [] "GET" "payload" true
      false ⟨true, 200, true⟩ (Or.inl rfl)⟩



theorem mustLoadConfig_ok_value (env : CommandEnv) (cfg cfgR : Config)
    (h : (mustLoadConfig env cfg).1 = Res.ok cfgR) :
    ∃ data, env.configFile = FileState.valid data ∧
      cfgR = mergeFlags env { cfg with host := data.host, cookie := data.cookie } := by
  unfold mustLoadConfig at h
  rw [rbind_fst] at h
  unfold loadConfigFile at h
  rcases hhome : env.home with _ | home <;> rw [hhome] at h
  · simp at h
  · rcases hfile : env.configFile with _ | _ | data <;> rw [hfile] at h
    · simp at h
    · simp at h
    · refine ⟨data, rfl, ?_⟩
      simp only [rbind_fst] at h
      rcases hcv : (checkVersion
          (mergeFlags env { cfg with host := data.host, cookie := data.cookie })
          env.currentVersion env.versionResp1 env.serverVersion1).1
          with u | m | m <;> rw [hcv] at h <;> simp_all

/-- C2: with a successful version fetch: a server-required version
strictly above the client's aborts fatally; otherwise a recommended
version strictly above the client's logs a warning and continues; and
when neither threshold exceeds the client version, `checkVersion`
returns normally, with no output or effect beyond the fetch itself. -/
theorem checkVersion_gate (cfg : Config) (current : Semver) (resp : HttpResponse)
    (server : Version) (hc : resp.connected = true) (hs : resp.status = 200)
    (hd : resp.decodeOk = true) :
    (Semver.GT server.grindVersionRequired current = true →
        (checkVersion cfg current resp server).1
          = Res.fatal "you must upgrade to continue")
    ∧ (Semver.GT server.grindVersionRequired current = false →
        Semver.GT server.grindVersionRecommended current = true →
        (checkVersion cfg current resp server).1 = Res.ok () ∧
          (checkVersion cfg current resp server).2
            = (mustGetObject cfg "/version" [] true resp).2
              ++ [Event.logLine "this grind version is older than the server recommends",
                  Event.logLine "please upgrade as soon as possible"])
    ∧ (Semver.GT server.grindVersionRequired current = false →
        Semver.GT server.grindVersionRecommended current = false →
        (checkVersion cfg current resp server).1 = Res.ok () ∧
          (checkVersion cfg current resp server).2
            = (mustGetObject cfg "/version" [] true resp).2) := by
  have hOk : (mustGetObject cfg "/version" [] true resp).1 = Res.ok true := by
    unfold mustGetObject
    rw [doRequest_fst]
    unfold requestOutcome
    simp [hc, hs, hd, validMethod, bne, show strHasPre "/version" "/" = true from by decide]
  have hfst : ∀ g : Bool → Res Unit × List Event,
      (rbind (mustGetObject cfg "/version" [] true resp) g).1 = (g true).1 := by
    intro g
    rw [rbind_fst, hOk]
  have hsnd : ∀ g : Bool → Res Unit × List Event,
      (rbind (mustGetObject cfg "/version" [] true resp) g).2
        = (mustGetObject cfg "/version" [] true resp).2 ++ (g true).2 := by
    intro g
    rw [rbind_snd, hOk]
  refine ⟨fun h1 => ?_, fun h1 h2 => ⟨?_, ?_⟩, fun h1 h2 => ⟨?_, ?_⟩⟩ <;>
    unfold checkVersion
  · simp [hfst, h1]
  · simp [hfst, h1, h2]
  · simp [hsnd, h1, h2]
  · simp [hfst, h1, h2]
  · simp [hsnd, h1, h2]

/-- C2 witness: client 2.1.0 against required 2.0.0 and recommended
2.2.0 at a successful fetch takes the warning branch: a normal return
with exactly the two advisory log lines. -/
theorem checkVersion_gate_witness :
    Semver.GT (⟨2, 0, 0⟩ : Semver) ⟨2, 1, 0⟩ = false ∧
    Semver.GT (⟨2, 2, 0⟩ : Semver) ⟨2, 1, 0⟩ = true ∧
    ((checkVersion zeroConfig ⟨2, 1, 0⟩ ⟨true, 200, true⟩ ⟨⟨2, 0, 0⟩, ⟨2, 2, 0⟩⟩).1
        = Res.ok () ∧
      (checkVersion zeroConfig ⟨2, 1, 0⟩ ⟨true, 200, true⟩ ⟨⟨2, 0, 0⟩, ⟨2, 2, 0⟩⟩).2
        = (mustGetObject zeroConfig "/version" [] true ⟨true, 200, true⟩).2
          ++ [Event.logLine "this grind version is older than the server recommends",
              Event.logLine "please upgrade as soon as possible"]) :=
  ⟨by decide, by decide,
    (checkVersion_gate zeroConfig ⟨2, 1, 0⟩ ⟨true, 200, true⟩ ⟨⟨2, 0, 0⟩, ⟨2, 2, 0⟩⟩
      rfl rfl rfl).2.1 (by decide) (by decide)⟩

/-- C3: contrary to the claim, the `grind init` flow requires a
pre-existing config file: `CommandInit` starts with `mustLoadConfig`,
which aborts fatally when the file is missing — even though that error
message itself directs the user to run `grind init`.  At the failing
input (no config file, everything else healthy) the flow aborts without
writing anything. -/
theorem commandInit_requires_config_file :
    (CommandInit envNoConfigFile zeroConfig).1
      = Res.fatal "Unable to load config file; try running grind init"
    ∧ hasFileWrite (CommandInit envNoConfigFile zeroConfig).2 = false :=
  ⟨rfl, rfl⟩

/-- C9: contrary to the claim, when the pasted token lacks the
cookie-name shape the flow does abort, but only after a network call has
already been made: `mustLoadConfig` runs the version gate — a GET of
`/version` — before the cookie is even read. -/
theorem init_network_before_cookie_check :
    (CommandInit envBadCookiePaste zeroConfig).1
      = Res.fatal "the cookie must start with the cookie name and ="
    ∧ hasNetRequest (CommandInit envBadCookiePaste zeroConfig).2 = true
    ∧ Event.netRequest "GET" "https://srv.example.edu/v2/version"
        ∈ (CommandInit envBadCookiePaste zeroConfig).2 :=
  ⟨rfl, rfl, by decide⟩

/-- C5: the save/load round trip.  Loading a config file that holds the
saved form of a well-formed config `c`, starting from the process-start
zero config, restores `host` and `cookie` exactly; the diagnostic flags
are not persisted and come out as dictated by the current invocation's
command-line flags (`apiReport` by either flag, `apiDump` by the
api-dump flag alone). -/
theorem config_round_trip (c : Config) (env : CommandEnv)
    (hh : env.home.isSome = true)
    (hf : env.configFile = FileState.valid (marshalConfig c))
    (hv : versionGatePasses env.currentVersion env.versionResp1 env.serverVersion1
        = true) :
    (mustLoadConfig env zeroConfig).1
      = Res.ok { host := c.host, cookie := c.cookie,
                 apiReport := env.flagApi || env.flagApiDump,
                 apiDump := env.flagApiDump } := by
  have hl : (loadConfigFile env zeroConfig).1
      = Res.ok { host := c.host, cookie := c.cookie,
                 apiReport := env.flagApi || env.flagApiDump,
                 apiDump := env.flagApiDump } := by
    unfold loadConfigFile
    rcases hhome : env.home with _ | home
    · rw [hhome] at hh; simp at hh
    · rw [hf]
      unfold mergeFlags marshalConfig zeroConfig
      cases ha : env.flagApi <;> cases hdp : env.flagApiDump <;> simp [ha, hdp]
  unfold mustLoadConfig
  rw [rbind_fst, hl]
  simp [rbind_fst, checkVersion_ok_of_gate _ _ _ _ hv]

/-- C5 witness: the sample config round trips through its saved file
under the api-dump flag. -/
theorem config_round_trip_witness :
    envDumpFlag.home.isSome = true ∧
    envDumpFlag.configFile = FileState.valid (marshalConfig cSample) ∧
    versionGatePasses envDumpFlag.currentVersion envDumpFlag.versionResp1
        envDumpFlag.serverVersion1 = true ∧
    (mustLoadConfig envDumpFlag zeroConfig).1
      = Res.ok { host := cSample.host, cookie := cSample.cookie,
                 apiReport := envDumpFlag.flagApi || envDumpFlag.flagApiDump,
                 apiDump := envDumpFlag.flagApiDump } :=
  ⟨rfl, rfl, by decide,
    config_round_trip cSample envDumpFlag rfl rfl (by decide)⟩

/-- C10: after `mustLoadConfig` returns, `apiDump` implies `apiReport`,
provided the implication held of the in-memory config at entry (as it
does for the zero value at process start): the api-dump flag also
switches on reporting, the api flag only adds reporting, and the config
file cannot touch either unexported flag. -/
theorem apiDump_implies_apiReport (env : CommandEnv) (cfg cfgR : Config)
    (hinv : cfg.apiDump = true → cfg.apiReport = true)
    (h : (mustLoadConfig env cfg).1 = Res.ok cfgR) :
    cfgR.apiDump = true → cfgR.apiReport = true := by
  obtain ⟨data, _, hval⟩ := mustLoadConfig_ok_value env cfg cfgR h
  subst hval
  unfold mergeFlags
  cases ha : env.flagApi <;> cases hdp : env.flagApiDump <;>
    simp [ha, hdp]
  all_goals exact hinv

/-- C10 witness: loading under the api-dump flag yields a config with
both diagnostic flags set, satisfying the implication. -/
theorem apiDump_implies_apiReport_witness :
    (zeroConfig.apiDump = true → zeroConfig.apiReport = true) ∧
    ((mustLoadConfig envDumpFlag zeroConfig).1
      = Res.ok { host := cSample.host, cookie := cSample.cookie,
                 apiReport := true, apiDump := true }) ∧
    (({ host := cSample.host, cookie := cSample.cookie,
        apiReport := true, apiDump := true } : Config).apiDump = true →
      ({ host := cSample.host, cookie := cSample.cookie,
         apiReport := true, apiDump := true } : Config).apiReport = true) :=
  ⟨by decide, by decide,
    apiDump_implies_apiReport envDumpFlag zeroConfig
      { host := cSample.host, cookie := cSample.cookie,
        apiReport := true, apiDump := true }
      (by decide) (by decide)⟩


end Codegrinder
